import Mathlib

/-!
Verification development for `sam_jax/models/load_model.py`, the model
selector of the SAM repository.  The file is a name-to-architecture
dispatch (`get_model`) over eight supported architecture names, followed
by a call into one of two framework initialization protocols:

* legacy (`create_image_model`): `flax.nn` stateful initialization by
  example input shape, and
* modern (`create_vit_image_model`): `flax.linen` initialization by a
  forward pass on an all-ones placeholder input.

The architecture-definition modules and the framework's numerical
initialization are external black boxes (out of scope per the design
document), so they are embedded symbolically: a framework init call is a
deterministic function of its arguments, represented by a constructor
recording exactly those arguments.  The dispatch logic, the hyperparameter
constants, the default-seed handling (`if not prng_key:`, a Python
truthiness test on an optional jax array), the error path and the
diagnostic log line are embedded faithfully from the source.
-/

/-- Python exceptions that this component can raise. -/
inductive PyError
  | valueError (msg : String)
deriving DecidableEq, Repr

/-- A jax/numpy ndarray, as far as this component inspects one: a shape
and the flat list of its elements.  `jax.random.PRNGKey(seed)` produces a
shape-`[2]` array of two unsigned 32-bit words. -/
structure NdArray where
  shape : List Nat
  data : List Int
deriving DecidableEq, Repr

/-- The `jax.random.PRNGKey` constructor: a shape-`(2,)` uint32 array
holding the upper and lower 32-bit words of the seed (`PRNGKey(0)` is the
array `[0, 0]`). -/
def PRNGKey (seed : Nat) : NdArray :=
  NdArray.mk [2] [Int.ofNat (seed / 2 ^ 32 % 2 ^ 32), Int.ofNat (seed % 2 ^ 32)]

/-- Python `bool()` of a jax/numpy array: defined only for one-element
arrays (value nonzero); empty and multi-element arrays raise a
`ValueError`, exactly as numpy and jax do. -/
def NdArray.pyBool (a : NdArray) : Except PyError Bool :=
  match a.data with
  | [] => Except.error (PyError.valueError
      "The truth value of an empty array is ambiguous.")
  | [v] => Except.ok (decide (v ≠ 0))
  | _ => Except.error (PyError.valueError
      "The truth value of an array with more than one element is ambiguous. Use a.any() or a.all()")

/-- Element dtypes this component mentions (`jnp.float32` in the
`init_by_shape` input spec). -/
inductive DType
  | float32
deriving DecidableEq, Repr

/-- The `transformer` hyperparameter dict passed to `VisionTransformer`. -/
structure TransformerCfg where
  num_layers : Nat
  mlp_dim : Nat
  num_heads : Nat
deriving DecidableEq, Repr

/-- A module description: an architecture definition bound with its
hyperparameters.  The four constructors correspond to the four external
architecture modules (`wide_resnet.WideResnet.partial`,
`wide_resnet_shakeshake.WideResnetShakeShake.partial`,
`pyramidnet.PyramidNetShakeDrop.partial`, and the linen
`vision_transformer.VisionTransformer`); the fields are exactly the
keyword arguments `get_model` binds.  `PyramidNetShakeDrop`'s
`pyramid_depth` is `none` when `get_model` leaves it to the library
default. -/
inductive FlaxModule
  | WideResnet (blocks_per_group channel_multiplier num_outputs : Nat)
  | WideResnetShakeShake (blocks_per_group channel_multiplier num_outputs : Nat)
  | PyramidNetShakeDrop (num_outputs : Nat) (pyramid_depth : Option Nat)
  | VisionTransformer (num_classes hidden_size : Nat)
      (transformer : TransformerCfg) (patches : Nat × Nat)
deriving DecidableEq, Repr

/-- A placeholder input tensor (`jnp.ones(input_shape)`). -/
inductive JnpTensor
  | ones (shape : List Nat)
deriving DecidableEq, Repr

/-- The initial learnable parameters.  The framework's `init_by_shape` is
a deterministic black box, so its output is represented by its inputs:
the PRNG key it was given, the stochastic-context key in scope, the input
specs, and the module being initialized. -/
inductive Params
  | byShape (rng : NdArray) (stochastic_rng : NdArray)
      (input_specs : List (List Nat × DType)) (module : FlaxModule)
deriving DecidableEq, Repr

/-- The `model` half of a result: either a legacy `flax.nn.Model` binding
a module to its initial parameters, or (VIT path) the linen module
returned as-is, unbound. -/
inductive ModelResult
  | nnModel (module : FlaxModule) (params : Params)
  | linenModule (module : FlaxModule)
deriving DecidableEq, Repr

/-- The `init_state` half of a result: either the `flax.nn.Collection`
captured by the legacy `flax.nn.stateful()` context, or the variables
`FrozenDict` returned by the linen `model.init` forward pass.  Each is a
deterministic black-box output, represented by the arguments that produced
it. -/
inductive StateResult
  | collection (rng : NdArray) (stochastic_rng : NdArray)
      (input_specs : List (List Nat × DType)) (module : FlaxModule)
  | variables (rng : NdArray) (input : JnpTensor) (train : Bool) (module : FlaxModule)
deriving DecidableEq, Repr

/-- The Python type of an init state, as printed by the diagnostic log
line `print(f'type(init_state): {type(init_state)}')`. -/
def StateResult.pyTypeName : StateResult → String
  | StateResult.collection _ _ _ _ => "<class 'flax.nn.base.Collection'>"
  | StateResult.variables _ _ _ _ => "<class 'flax.core.frozen_dict.FrozenDict'>"

/-- The PRNG key from which an init state's parameters were sampled. -/
def StateResult.initRng : StateResult → NdArray
  | StateResult.collection k _ _ _ => k
  | StateResult.variables k _ _ _ => k

/-- The module underlying a returned model. -/
def ModelResult.moduleOf : ModelResult → FlaxModule
  | ModelResult.nnModel m _ => m
  | ModelResult.linenModule m => m

/-- What one call to a `create_*_image_model` helper produces: the
returned `(model, init_state)` pair plus the lines it printed. -/
structure CallResult where
  model : ModelResult
  state : StateResult
  log : List String
deriving DecidableEq, Repr

/-- `create_image_model` (legacy protocol): builds the input shape
`(batch_size, image_size, image_size, num_channels)`, initializes the
module by shape under `flax.nn.stateful()` and
`flax.nn.stochastic(jax.random.PRNGKey(0))`, wraps the parameters in a
`flax.nn.Model`, and prints the type of the captured init state. -/
def create_image_model (prng_key : NdArray) (batch_size image_size : Nat)
    (module : FlaxModule) (num_channels : Nat) : CallResult :=
  let input_shape := [batch_size, image_size, image_size, num_channels]
  let initial_params :=
    Params.byShape prng_key (PRNGKey 0) [(input_shape, DType.float32)] module
  let model := ModelResult.nnModel module initial_params
  let init_state :=
    StateResult.collection prng_key (PRNGKey 0) [(input_shape, DType.float32)] module
  CallResult.mk model init_state
    ["type(init_state): " ++ init_state.pyTypeName]

/-- `create_vit_image_model` (modern protocol): builds the input shape,
makes the all-ones placeholder `x = jnp.ones(input_shape)`, initializes by
the forward pass `model.init(jax.random.PRNGKey(0), x, train=False)` —
note the hard-coded `PRNGKey(0)`: the `prng_key` argument is never used —
returns the linen module itself together with the variables dict, and
prints the type of the init state. -/
def create_vit_image_model (prng_key : NdArray) (batch_size image_size : Nat)
    (model : FlaxModule) (num_channels : Nat) : CallResult :=
  let input_shape := [batch_size, image_size, image_size, num_channels]
  let x := JnpTensor.ones input_shape
  let init_state := StateResult.variables (PRNGKey 0) x false model
  CallResult.mk (ModelResult.linenModule model) init_state
    ["type(init_state): " ++ init_state.pyTypeName]

/-- The `_AVAILABLE_MODEL_NAMES` list from the source. -/
def _AVAILABLE_MODEL_NAMES : List String := [
  "WideResnet28x10",
  "WideResnet28x6_ShakeShake",
  "Pyramid_ShakeDrop",
  "VisionTransformer",
  "VisionTransformer_mini",
  "WideResnet_mini",
  "WideResnet_ShakeShake_mini",
  "Pyramid_ShakeDrop_mini"]

/-- `get_model`: dispatches on `model_name` to build the module bound
with its fixed hyperparameters (raising
`ValueError('Unrecognized model name.')` for any other name), then runs
the source's `if not prng_key:` — Python truthiness of the optional
array, which for `None` selects the default `random.PRNGKey(0)`, for a
falsy one-element array silently selects the default as well, and for a
standard two-word key raises — and finally initializes through the modern
protocol for the two VisionTransformer names and the legacy protocol for
every other supported name. -/
def get_model (model_name : String) (batch_size image_size num_classes num_channels : Nat)
    (prng_key : Option NdArray) : Except PyError CallResult := do
  let module ←
    if model_name = "WideResnet28x10" then
      Except.ok (FlaxModule.WideResnet 4 10 num_classes)
    else if model_name = "WideResnet28x6_ShakeShake" then
      Except.ok (FlaxModule.WideResnetShakeShake 4 6 num_classes)
    else if model_name = "Pyramid_ShakeDrop" then
      Except.ok (FlaxModule.PyramidNetShakeDrop num_classes none)
    else if model_name = "VisionTransformer" then
      Except.ok (FlaxModule.VisionTransformer num_classes 768
        (TransformerCfg.mk 12 3072 12) (16, 16))
    else if model_name = "VisionTransformer_mini" then
      Except.ok (FlaxModule.VisionTransformer num_classes 768
        (TransformerCfg.mk 2 3072 12) (16, 16))
    else if model_name = "WideResnet_mini" then
      Except.ok (FlaxModule.WideResnet 2 1 num_classes)
    else if model_name = "WideResnet_ShakeShake_mini" then
      Except.ok (FlaxModule.WideResnetShakeShake 2 1 num_classes)
    else if model_name = "Pyramid_ShakeDrop_mini" then
      Except.ok (FlaxModule.PyramidNetShakeDrop num_classes (some 11))
    else
      Except.error (PyError.valueError "Unrecognized model name.")
  let key ←
    match prng_key with
    | none => Except.ok (PRNGKey 0)
    | some a => do
        let b ← a.pyBool
        Except.ok (if b then a else PRNGKey 0)
  if model_name = "VisionTransformer" ∨ model_name = "VisionTransformer_mini" then
    Except.ok (create_vit_image_model key batch_size image_size module num_channels)
  else
    Except.ok (create_image_model key batch_size image_size module num_channels)

/-! ### Helper lemmas shared by the claim proofs -/

theorem bindError_eq {α β : Type} (e : PyError) (f : α → Except PyError β) :
    (Except.error e >>= f) = Except.error e := rfl

theorem bindOk_eq {α β : Type} (a : α) (f : α → Except PyError β) :
    (Except.ok a >>= f) = f a := rfl

/-- Shared helper: the module embedded in the result of `get_model` (with
the default key) does not depend on batch size, image size or channel
count; only the name and `num_classes` reach the module constructors. -/
theorem get_model_moduleOf_indep (model_name : String)
    (b1 i1 c1 b2 i2 c2 nc : Nat) :
    (get_model model_name b1 i1 nc c1 none).map (fun r => r.model.moduleOf) =
      (get_model model_name b2 i2 nc c2 none).map (fun r => r.model.moduleOf) := by
  rcases eq_or_ne model_name "WideResnet28x10" with rfl | h1
  · rfl
  rcases eq_or_ne model_name "WideResnet28x6_ShakeShake" with rfl | h2
  · rfl
  rcases eq_or_ne model_name "Pyramid_ShakeDrop" with rfl | h3
  · rfl
  rcases eq_or_ne model_name "VisionTransformer" with rfl | h4
  · rfl
  rcases eq_or_ne model_name "VisionTransformer_mini" with rfl | h5
  · rfl
  rcases eq_or_ne model_name "WideResnet_mini" with rfl | h6
  · rfl
  rcases eq_or_ne model_name "WideResnet_ShakeShake_mini" with rfl | h7
  · rfl
  rcases eq_or_ne model_name "Pyramid_ShakeDrop_mini" with rfl | h8
  · rfl
  simp [get_model, h1, h2, h3, h4, h5, h6, h7, h8, bindError_eq]

/-! ### Claim theorems -/

/-- C1: for every `model_name` outside the supported set of eight
architecture names, `get_model` raises `ValueError('Unrecognized model
name.')` — for any shape parameters and any (or no) PRNG key — and so
returns no model or state. -/
theorem unrecognized_name_raises_value_error (model_name : String)
    (h : model_name ∉ _AVAILABLE_MODEL_NAMES)
    (batch_size image_size num_classes num_channels : Nat)
    (prng_key : Option NdArray) :
    get_model model_name batch_size image_size num_classes num_channels prng_key =
      Except.error (PyError.valueError "Unrecognized model name.") := by
  simp only [_AVAILABLE_MODEL_NAMES, List.mem_cons, List.not_mem_nil, or_false] at h
  push_neg at h
  obtain ⟨h1, h2, h3, h4, h5, h6, h7, h8⟩ := h
  simp [get_model, h1, h2, h3, h4, h5, h6, h7, h8, bindError_eq]

/-- Witness for C1 at the concrete unsupported name `"ResNet50"`. -/
theorem unrecognized_name_raises_value_error_witness :
    "ResNet50" ∉ _AVAILABLE_MODEL_NAMES ∧
    get_model "ResNet50" 2 32 10 3 none =
      Except.error (PyError.valueError "Unrecognized model name.") :=
  ⟨by decide,
   unrecognized_name_raises_value_error "ResNet50" (by decide) 2 32 10 3 none⟩

/-- C2: for every `model_name` in the supported set, `get_model` with any
shape parameters (and no explicit key) succeeds, returning a
`(model, state)` pair. -/
theorem supported_name_returns_model_and_state (model_name : String)
    (h : model_name ∈ _AVAILABLE_MODEL_NAMES)
    (batch_size image_size num_classes num_channels : Nat) :
    (get_model model_name batch_size image_size num_classes num_channels
      none).isOk = true := by
  simp only [_AVAILABLE_MODEL_NAMES, List.mem_cons, List.not_mem_nil, or_false] at h
  rcases h with rfl | rfl | rfl | rfl | rfl | rfl | rfl | rfl
  all_goals rfl

/-- Witness for C2 at the concrete supported name `"WideResnet28x10"`. -/
theorem supported_name_returns_model_and_state_witness :
    "WideResnet28x10" ∈ _AVAILABLE_MODEL_NAMES ∧
    (get_model "WideResnet28x10" 2 32 10 3 none).isOk = true :=
  ⟨by decide,
   supported_name_returns_model_and_state "WideResnet28x10" (by decide) 2 32 10 3⟩

/-- C3: `get_model` dispatches by architecture family: exactly the two
VisionTransformer names go through the modern protocol
(`create_vit_image_model`: the linen module instance, initialized by one
forward pass on the all-ones placeholder), and each of the other six
supported names goes through the legacy protocol (`create_image_model`:
the module description bound with its hyperparameters, initialized by
example input shape with a separately-threaded init-state collection). -/
theorem dispatch_selects_protocol_by_family (bs isz nc nch : Nat) :
    (get_model "VisionTransformer" bs isz nc nch none =
      Except.ok (create_vit_image_model (PRNGKey 0) bs isz
        (FlaxModule.VisionTransformer nc 768 (TransformerCfg.mk 12 3072 12) (16, 16)) nch)) ∧
    (get_model "VisionTransformer_mini" bs isz nc nch none =
      Except.ok (create_vit_image_model (PRNGKey 0) bs isz
        (FlaxModule.VisionTransformer nc 768 (TransformerCfg.mk 2 3072 12) (16, 16)) nch)) ∧
    (get_model "WideResnet28x10" bs isz nc nch none =
      Except.ok (create_image_model (PRNGKey 0) bs isz
        (FlaxModule.WideResnet 4 10 nc) nch)) ∧
    (get_model "WideResnet28x6_ShakeShake" bs isz nc nch none =
      Except.ok (create_image_model (PRNGKey 0) bs isz
        (FlaxModule.WideResnetShakeShake 4 6 nc) nch)) ∧
    (get_model "Pyramid_ShakeDrop" bs isz nc nch none =
      Except.ok (create_image_model (PRNGKey 0) bs isz
        (FlaxModule.PyramidNetShakeDrop nc none) nch)) ∧
    (get_model "WideResnet_mini" bs isz nc nch none =
      Except.ok (create_image_model (PRNGKey 0) bs isz
        (FlaxModule.WideResnet 2 1 nc) nch)) ∧
    (get_model "WideResnet_ShakeShake_mini" bs isz nc nch none =
      Except.ok (create_image_model (PRNGKey 0) bs isz
        (FlaxModule.WideResnetShakeShake 2 1 nc) nch)) ∧
    (get_model "Pyramid_ShakeDrop_mini" bs isz nc nch none =
      Except.ok (create_image_model (PRNGKey 0) bs isz
        (FlaxModule.PyramidNetShakeDrop nc (some 11)) nch)) ∧
    (∀ k m, (create_vit_image_model k bs isz m nch).model = ModelResult.linenModule m ∧
      (create_vit_image_model k bs isz m nch).state =
        StateResult.variables (PRNGKey 0) (JnpTensor.ones [bs, isz, isz, nch]) false m) ∧
    (∀ k m, (create_image_model k bs isz m nch).model =
        ModelResult.nnModel m
          (Params.byShape k (PRNGKey 0) [([bs, isz, isz, nch], DType.float32)] m) ∧
      (create_image_model k bs isz m nch).state =
        StateResult.collection k (PRNGKey 0) [([bs, isz, isz, nch], DType.float32)] m) :=
  ⟨rfl, rfl, rfl, rfl, rfl, rfl, rfl, rfl,
   fun _ _ => ⟨rfl, rfl⟩, fun _ _ => ⟨rfl, rfl⟩⟩

/-- C4 evidence: supplying an explicit standard PRNG key — a two-word
`jax.random.PRNGKey` array — makes `get_model` raise the numpy
truth-value `ValueError` at the `if not prng_key:` check, for every seed,
so a call with an explicit seed never produces initial parameters at
all. -/
theorem explicit_prngkey_raises_truth_value_error (seed bs isz nc nch : Nat) :
    get_model "WideResnet_mini" bs isz nc nch (some (PRNGKey seed)) =
      Except.error (PyError.valueError
        "The truth value of an array with more than one element is ambiguous. Use a.any() or a.all()") :=
  rfl

/-- C5: when no PRNG key is supplied, every supported architecture is
initialized from the fixed default `random.PRNGKey(0)` — a deterministic
constant, not a fresh random draw. -/
theorem default_seed_is_fixed_prngkey_zero (model_name : String)
    (h : model_name ∈ _AVAILABLE_MODEL_NAMES)
    (batch_size image_size num_classes num_channels : Nat) :
    (get_model model_name batch_size image_size num_classes num_channels
      none).map (fun r => r.state.initRng) = Except.ok (PRNGKey 0) := by
  simp only [_AVAILABLE_MODEL_NAMES, List.mem_cons, List.not_mem_nil, or_false] at h
  rcases h with rfl | rfl | rfl | rfl | rfl | rfl | rfl | rfl
  all_goals rfl

/-- Witness for C5 at the concrete supported name `"Pyramid_ShakeDrop"`. -/
theorem default_seed_is_fixed_prngkey_zero_witness :
    "Pyramid_ShakeDrop" ∈ _AVAILABLE_MODEL_NAMES ∧
    (get_model "Pyramid_ShakeDrop" 2 32 10 3 none).map
      (fun r => r.state.initRng) = Except.ok (PRNGKey 0) :=
  ⟨by decide,
   default_seed_is_fixed_prngkey_zero "Pyramid_ShakeDrop" (by decide) 2 32 10 3⟩

/-- C6: the hyperparameters bound into the module are fixed constants
determined solely by the architecture name — e.g. `WideResnet28x10` gets
`blocks_per_group=4, channel_multiplier=10`; `VisionTransformer` gets 12
layers, mlp_dim 3072, 12 heads, hidden size 768 and 16x16 patches;
`Pyramid_ShakeDrop_mini` gets `pyramid_depth=11` — with `num_classes` the
only caller-controlled value reaching a constructor, and the remaining
shape parameters (batch size, image size, channel count) never influence
the module. -/
theorem hyperparameters_fixed_by_name (bs isz nc nch : Nat) :
    ((get_model "WideResnet28x10" bs isz nc nch none).map
      (fun r => r.model.moduleOf) = Except.ok (FlaxModule.WideResnet 4 10 nc)) ∧
    ((get_model "WideResnet28x6_ShakeShake" bs isz nc nch none).map
      (fun r => r.model.moduleOf) = Except.ok (FlaxModule.WideResnetShakeShake 4 6 nc)) ∧
    ((get_model "Pyramid_ShakeDrop" bs isz nc nch none).map
      (fun r => r.model.moduleOf) = Except.ok (FlaxModule.PyramidNetShakeDrop nc none)) ∧
    ((get_model "VisionTransformer" bs isz nc nch none).map
      (fun r => r.model.moduleOf) =
        Except.ok (FlaxModule.VisionTransformer nc 768 (TransformerCfg.mk 12 3072 12) (16, 16))) ∧
    ((get_model "VisionTransformer_mini" bs isz nc nch none).map
      (fun r => r.model.moduleOf) =
        Except.ok (FlaxModule.VisionTransformer nc 768 (TransformerCfg.mk 2 3072 12) (16, 16))) ∧
    ((get_model "WideResnet_mini" bs isz nc nch none).map
      (fun r => r.model.moduleOf) = Except.ok (FlaxModule.WideResnet 2 1 nc)) ∧
    ((get_model "WideResnet_ShakeShake_mini" bs isz nc nch none).map
      (fun r => r.model.moduleOf) = Except.ok (FlaxModule.WideResnetShakeShake 2 1 nc)) ∧
    ((get_model "Pyramid_ShakeDrop_mini" bs isz nc nch none).map
      (fun r => r.model.moduleOf) = Except.ok (FlaxModule.PyramidNetShakeDrop nc (some 11))) ∧
    (∀ model_name b1 i1 c1 b2 i2 c2,
      (get_model model_name b1 i1 nc c1 none).map (fun r => r.model.moduleOf) =
        (get_model model_name b2 i2 nc c2 none).map (fun r => r.model.moduleOf)) :=
  ⟨rfl, rfl, rfl, rfl, rfl, rfl, rfl, rfl,
   fun model_name b1 i1 c1 b2 i2 c2 =>
     get_model_moduleOf_indep model_name b1 i1 c1 b2 i2 c2 nc⟩

/-- C7: `get_model "WideResnet_mini"` builds the mini wide-resnet module
with `blocks_per_group=2`, `channel_multiplier=1` and `num_outputs`
equal to the supplied `num_classes`, and the returned model binds its
parameters to exactly that configuration. -/
theorem wideresnet_mini_configuration (bs isz nc nch : Nat) :
    get_model "WideResnet_mini" bs isz nc nch none =
      Except.ok (create_image_model (PRNGKey 0) bs isz
        (FlaxModule.WideResnet 2 1 nc) nch) ∧
    (create_image_model (PRNGKey 0) bs isz (FlaxModule.WideResnet 2 1 nc) nch).model =
      ModelResult.nnModel (FlaxModule.WideResnet 2 1 nc)
        (Params.byShape (PRNGKey 0) (PRNGKey 0)
          [([bs, isz, isz, nch], DType.float32)] (FlaxModule.WideResnet 2 1 nc)) :=
  ⟨rfl, rfl⟩

/-- C8: every successful call emits exactly one diagnostic log line, and
that line reports the Python type of the produced init state. -/
theorem single_diagnostic_log_line (model_name : String)
    (h : model_name ∈ _AVAILABLE_MODEL_NAMES)
    (batch_size image_size num_classes num_channels : Nat) :
    (get_model model_name batch_size image_size num_classes num_channels
      none).map (fun r => r.log) =
    (get_model model_name batch_size image_size num_classes num_channels
      none).map (fun r => ["type(init_state): " ++ r.state.pyTypeName]) := by
  simp only [_AVAILABLE_MODEL_NAMES, List.mem_cons, List.not_mem_nil, or_false] at h
  rcases h with rfl | rfl | rfl | rfl | rfl | rfl | rfl | rfl
  all_goals rfl

/-- Witness for C8 at the concrete supported name `"VisionTransformer"`. -/
theorem single_diagnostic_log_line_witness :
    "VisionTransformer" ∈ _AVAILABLE_MODEL_NAMES ∧
    (get_model "VisionTransformer" 2 32 10 3 none).map (fun r => r.log) =
      (get_model "VisionTransformer" 2 32 10 3 none).map
        (fun r => ["type(init_state): " ++ r.state.pyTypeName]) :=
  ⟨by decide, single_diagnostic_log_line "VisionTransformer" (by decide) 2 32 10 3⟩

/-- C9: the seed-presence check is Python truthiness, not a comparison
with `None`: any explicitly supplied array whose truth value is false —
such as a zero-valued one-element key — is silently discarded, and the
call behaves exactly as if no key had been supplied (so the default
`PRNGKey(0)` is used). -/
theorem truthiness_discards_falsy_key (model_name : String)
    (batch_size image_size num_classes num_channels : Nat)
    (a : NdArray) (h : a.pyBool = Except.ok false) :
    get_model model_name batch_size image_size num_classes num_channels (some a) =
      get_model model_name batch_size image_size num_classes num_channels none := by
  simp only [get_model, h, bindOk_eq, bindError_eq]
  simp only [Bool.false_eq_true, if_false]

/-- Witness for C9: the zero-valued scalar array is falsy, and supplying
it explicitly gives the very same result as supplying no key at all. -/
theorem truthiness_discards_falsy_key_witness :
    NdArray.pyBool (NdArray.mk [] [0]) = Except.ok false ∧
    get_model "WideResnet_mini" 2 32 10 3 (some (NdArray.mk [] [0])) =
      get_model "WideResnet_mini" 2 32 10 3 none :=
  ⟨rfl, truthiness_discards_falsy_key "WideResnet_mini" 2 32 10 3
    (NdArray.mk [] [0]) rfl⟩

/-- C10: the VisionTransformer path never uses the supplied PRNG key:
`create_vit_image_model` gives identical results for any two keys, its
init state is always keyed by the hard-coded `PRNGKey(0)`, the `get_model`
results for the two VIT names agree at any two explicit standard seeds,
and a truthy one-element key that does reach the VIT path still yields
exactly the no-key result. -/
theorem vit_init_independent_of_prng_key :
    (∀ k1 k2 bs isz m nch, create_vit_image_model k1 bs isz m nch =
      create_vit_image_model k2 bs isz m nch) ∧
    (∀ k bs isz m nch, (create_vit_image_model k bs isz m nch).state.initRng =
      PRNGKey 0) ∧
    (∀ bs isz nc nch s1 s2,
      get_model "VisionTransformer" bs isz nc nch (some (PRNGKey s1)) =
        get_model "VisionTransformer" bs isz nc nch (some (PRNGKey s2)) ∧
      get_model "VisionTransformer_mini" bs isz nc nch (some (PRNGKey s1)) =
        get_model "VisionTransformer_mini" bs isz nc nch (some (PRNGKey s2))) ∧
    (∀ bs isz nc nch (v : Int), v ≠ 0 →
      get_model "VisionTransformer" bs isz nc nch (some (NdArray.mk [] [v])) =
        get_model "VisionTransformer" bs isz nc nch none) :=
  ⟨fun _ _ _ _ _ _ => rfl,
   fun _ _ _ _ _ => rfl,
   fun _ _ _ _ _ _ => ⟨rfl, rfl⟩,
   fun bs isz nc nch v hv => by
     simp [get_model, NdArray.pyBool, hv, bindOk_eq, create_vit_image_model]⟩

/-- Witness for C10: a truthy scalar key reaching the VIT path yields
the no-key result. -/
theorem vit_init_independent_of_prng_key_witness :
    (1 : Int) ≠ 0 ∧
    get_model "VisionTransformer" 2 32 10 3 (some (NdArray.mk [] [1])) =
      get_model "VisionTransformer" 2 32 10 3 none :=
  ⟨by decide,
   vit_init_independent_of_prng_key.2.2.2 2 32 10 3 1 (by decide)⟩
